import Mathlib

/-!
Verification of the ez-vids two-worker video pipeline.

Shallow embedding of the rate-limit store (both the TypeScript
read-then-write client and the atomic Postgres function of migration 003),
the submit and poll workers, the request-intake and status-read services
(both the provider-coupled variant and the queue variant), and the
product-image upload handler.  Times are epoch integers (seconds for the
SQL layer, milliseconds for the JavaScript layer); database rows are plain
structures; provider HTTP calls are oracles supplied as function arguments.
-/

namespace EzVids

/-- Job lifecycle states, from types/video.ts JobStatus. -/
inductive JobStatus
  | pending
  | created
  | submitted
  | queued
  | rendering
  | completed
  | failed
deriving DecidableEq, Repr

/-- Voice modes, from types/video.ts VoiceMode. -/
inductive VoiceMode
  | user_audio
  | tts
deriving DecidableEq, Repr

/-- Caption settings nested inside a request (types/video.ts). -/
structure Captions where
  enabled : Bool
  style : Option String
deriving DecidableEq, Repr

/-- Video render request, from types/video.ts VideoRequest.  The source
field aspectRatio is named aspect here. -/
structure VideoRequest where
  scriptText : Option String
  audioUrl : Option String
  voiceMode : VoiceMode
  avatarId : String
  voiceId : Option String
  productImageUrl : Option String
  productName : Option String
  aspect : String
  captions : Captions
deriving DecidableEq, Repr

/-- One row of the video_jobs table (migration 001, types/video.ts
VideoJob).  Timestamps are epoch milliseconds. -/
structure Job where
  id : String
  user_id : String
  provider_job_id : Option String
  status : JobStatus
  request : VideoRequest
  video_url : Option String
  thumbnail_url : Option String
  credits_used : Option Int
  error_message : Option String
  created_at : Int
  updated_at : Int
  completed_at : Option Int
deriving DecidableEq, Repr

/-- One row of the api_rate_limits table (migrations 002 and 003):
window_start is an epoch time, calls_made the counter, max_calls the
ceiling, window_secs the window length in seconds. -/
structure RateRow where
  window_start : Int
  calls_made : Int
  max_calls : Int
  window_secs : Int
deriving DecidableEq, Repr

/-- Body of the Postgres function acquire_api_slots (migration 003) acting
on the row it locked: expired window resets window_start and stores the
grant; a live window grants the minimum of the request and the remaining
capacity, bumping calls_made only when the grant is positive.  Time is in
epoch seconds; the EXTRACT EPOCH comparison is the strict test
v_now - window_start > window_secs. -/
def acquireRow (v_now p_requested : Int) (r : RateRow) : Int × RateRow :=
  if v_now - r.window_start > r.window_secs then
    let v_granted := min p_requested r.max_calls
    (v_granted, { r with window_start := v_now, calls_made := v_granted })
  else
    let v_remaining := r.max_calls - r.calls_made
    let v_granted := min p_requested v_remaining
    if v_granted > 0 then
      (v_granted, { r with calls_made := r.calls_made + v_granted })
    else
      (v_granted, r)

/-- The Postgres function acquire_api_slots (migration 003, part_019):
a missing row for the key returns 0 and writes nothing; otherwise the
locked row is processed by acquireRow in the same transaction. -/
def acquire_api_slots (v_now p_requested : Int) (row : Option RateRow) : Int × Option RateRow :=
  match row with
  | none => (0, none)
  | some r =>
    let p := acquireRow v_now p_requested r
    (p.1, some p.2)

/-- Key of the migration-003 rate-limit table: composite primary key
(api, caller). -/
structure RateKey where
  api : String
  caller : String
deriving DecidableEq, Repr

/-- Locate the row for a key in an association-list model of the
api_rate_limits table of migration 003 (the primary key makes the match
unique). -/
def lookupRow : List (RateKey × RateRow) → RateKey → Option RateRow
  | [], _ => none
  | (k, r) :: rest, key => if k = key then some r else lookupRow rest key

/-- Write back the row for a key (the UPDATE of acquire_api_slots). -/
def setRow : List (RateKey × RateRow) → RateKey → RateRow → List (RateKey × RateRow)
  | [], _, _ => []
  | (k, r) :: rest, key, newRow =>
    if k = key then (k, newRow) :: rest else (k, r) :: setRow rest key newRow

/-- One invocation of acquire_api_slots against the keyed migration-003
store: locate the (api, caller) row, run the atomic body, write back. -/
def acquireAt (v_now p_requested : Int) (key : RateKey) (s : List (RateKey × RateRow)) :
    Int × List (RateKey × RateRow) :=
  match acquire_api_slots v_now p_requested (lookupRow s key) with
  | (g, none) => (g, s)
  | (g, some r) => (g, setRow s key r)

/-- The TypeScript acquireSlots of part_014, executed sequentially with no
interleaving.  The row is keyed by api alone (migration 002); a read error
and a missing row take the same branch and return 0.  Times are epoch
milliseconds: the JavaScript test (now - windowStart) / 1000 > window_secs
is, over the rationals, exactly nowMs - window_start > 1000 * window_secs. -/
def acquireSlotsTS (nowMs requested : Int) (row : Option RateRow) : Int × Option RateRow :=
  match row with
  | none => (0, none)
  | some data =>
    if nowMs - data.window_start > 1000 * data.window_secs then
      let granted := min requested data.max_calls
      (granted, some { data with window_start := nowMs, calls_made := granted })
    else
      let remaining := data.max_calls - data.calls_made
      let granted := min remaining requested
      if granted > 0 then
        (granted, some { data with calls_made := data.calls_made + granted })
      else
        (granted, some data)

/-- Locate the row of the migration-002 table, keyed by api alone. -/
def lookupApi : List (String × RateRow) → String → Option RateRow
  | [], _ => none
  | (a, r) :: rest, api => if a = api then some r else lookupApi rest api

/-- Write back the row of the migration-002 table for an api key. -/
def setApi : List (String × RateRow) → String → RateRow → List (String × RateRow)
  | [], _, _ => []
  | (a, r) :: rest, api, newRow =>
    if a = api then (a, newRow) :: rest else (a, r) :: setApi rest api newRow

/-- One sequential part_014 acquireSlots call against the api-keyed store. -/
def acquireSlotsTSAt (nowMs : Int) (api : String) (requested : Int)
    (s : List (String × RateRow)) : Int × List (String × RateRow) :=
  match acquireSlotsTS nowMs requested (lookupApi s api) with
  | (g, none) => (g, s)
  | (g, some r) => (g, setApi s api r)

/-- The rate-limit acquisition the submit worker performs
(submit-worker/index.ts line 39): acquireSlots with api creatify and the
candidate count, no caller argument. -/
def submitAcquire (nowMs n : Int) (s : List (String × RateRow)) :
    Int × List (String × RateRow) :=
  acquireSlotsTSAt nowMs "creatify" n s

/-- The rate-limit acquisition the poll worker performs (part_010 line 40):
acquireSlots with api creatify and the candidate count, no caller
argument. -/
def pollAcquire (nowMs n : Int) (s : List (String × RateRow)) :
    Int × List (String × RateRow) :=
  acquireSlotsTSAt nowMs "creatify" n s

/-- The write a part_014 call issues at its second store access: nothing,
the window reset, or the counter bump. -/
inductive RateWrite
  | skip
  | resetTo (ws cm : Int)
  | bump (cm : Int)
deriving DecidableEq, Repr

/-- The branch part_014 takes, computed purely from the snapshot it read:
the value returned and the write it then issues.  In the live-window branch
the bump stores snap.calls_made + granted, i.e. the snapshot counter plus
the grant, not the store counter at write time. -/
def tsDecide (nowMs requested : Int) (snap : RateRow) : Int × RateWrite :=
  if nowMs - snap.window_start > 1000 * snap.window_secs then
    let granted := min requested snap.max_calls
    (granted, RateWrite.resetTo nowMs granted)
  else
    let remaining := snap.max_calls - snap.calls_made
    let granted := min remaining requested
    if granted > 0 then
      (granted, RateWrite.bump (snap.calls_made + granted))
    else
      (granted, RateWrite.skip)

/-- Apply one of the part_014 writes to the shared row. -/
def applyWrite : RateWrite → RateRow → RateRow
  | RateWrite.skip, r => r
  | RateWrite.resetTo ws cm, r => { r with window_start := ws, calls_made := cm }
  | RateWrite.bump cm, r => { r with calls_made := cm }

/-- Progress of one in-flight part_014 call: before its read, between its
read and its write, or returned with its grant. -/
inductive CallPhase
  | idle
  | readDone (snap : RateRow)
  | finished (granted : Int)
deriving DecidableEq, Repr

/-- Shared store plus the phase of every concurrent part_014 call. -/
structure ConcState where
  row : RateRow
  calls : List CallPhase
deriving DecidableEq, Repr

/-- Scheduler events: call i performs its store read, or call i computes
its branch from its snapshot and performs its write (its only two store
accesses, the awaits of part_014). -/
inductive Ev
  | read (i : Nat)
  | commit (i : Nat)
deriving DecidableEq, Repr

/-- Small-step interpreter for concurrent part_014 calls: a read snapshots
the current row, a commit runs tsDecide on the snapshot and applies the
resulting write to the current row.  Events for calls in the wrong phase or
out of range do nothing, so every schedule is an admissible interleaving. -/
def stepEv (nowMs : Int) (reqs : List Int) (s : ConcState) : Ev → ConcState
  | Ev.read i =>
    match s.calls.get? i with
    | some CallPhase.idle => { s with calls := s.calls.set i (CallPhase.readDone s.row) }
    | _ => s
  | Ev.commit i =>
    match s.calls.get? i, reqs.get? i with
    | some (CallPhase.readDone snap), some req =>
      let p := tsDecide nowMs req snap
      { row := applyWrite p.2 s.row, calls := s.calls.set i (CallPhase.finished p.1) }
    | _, _ => s

/-- Run a schedule of read and commit events over concurrent part_014
calls with the given request sizes against one shared row. -/
def runSched (nowMs : Int) (reqs : List Int) (row : RateRow) (sched : List Ev) : ConcState :=
  sched.foldl (stepEv nowMs reqs) { row := row, calls := reqs.map (fun _ => CallPhase.idle) }

/-- Sum of the values returned by the calls that have finished. -/
def grantsSum (s : ConcState) : Int :=
  s.calls.foldl
    (fun acc c =>
      match c with
      | CallPhase.finished g => acc + g
      | _ => acc)
    0

/-- Sequential composition of atomic acquire_api_slots calls on one locked
row: each list entry is the call time and the requested count; returns the
grants in order and the final row. -/
def acquireRunA : List (Int × Int) → RateRow → List Int × RateRow
  | [], r => ([], r)
  | c :: rest, r =>
    let p := acquireRow c.1 c.2 r
    let q := acquireRunA rest p.2
    (p.1 :: q.1, q.2)

/-- Truthiness of an optional string field, as JavaScript sees it: present
and non-empty. -/
def truthyS : Option String → Bool
  | some s => s != ""
  | none => false

/-- Truthiness of an optional numeric field, as JavaScript sees it:
present and non-zero. -/
def truthyI : Option Int → Bool
  | some n => n != 0
  | none => false

/-- Outcome of one creatifyProvider.createJob call (part_012 lines 58-98):
HTTP 429 raises RateLimitedError, any other non-ok response raises an
Error carrying the shown message, success yields the provider id and the
mapped status. -/
inductive CreateOutcome
  | rateLimited
  | httpError (code : Nat) (body : String)
  | ok (providerJobId : String) (status : JobStatus)
deriving DecidableEq, Repr

/-- Message of RateLimitedError (part_012 line 7) for an endpoint. -/
def rateLimitedMessage (endpoint : String) : String :=
  "Creatify rate limited on " ++ endpoint

/-- Message of the Error part_012 line 90 throws for a non-ok, non-429
createJob response. -/
def createErrorMessage (code : Nat) (body : String) : String :=
  "Creatify createJob " ++ toString code ++ ": " ++ body

/-- The message the submit-worker catch block persists for a failed
createJob call (submit-worker/index.ts line 70 reads err.message). -/
def submitErrMessage : CreateOutcome → String
  | CreateOutcome.rateLimited => rateLimitedMessage "createJob"
  | CreateOutcome.httpError code body => createErrorMessage code body
  | CreateOutcome.ok _ _ => ""

/-- Body of the submit-worker loop for one job (submit-worker/index.ts
lines 54-76): on success write provider_job_id, the returned status and
updated_at; on any caught error, RateLimitedError included, write status
failed with the error message. -/
def submitProcessJob (now : Int) (outcome : CreateOutcome) (j : Job) : Job :=
  match outcome with
  | CreateOutcome.ok pid st =>
    { j with provider_job_id := some pid, status := st, updated_at := now }
  | CreateOutcome.rateLimited =>
    { j with status := JobStatus.failed,
             error_message := some (rateLimitedMessage "createJob"),
             updated_at := now }
  | CreateOutcome.httpError code body =>
    { j with status := JobStatus.failed,
             error_message := some (createErrorMessage code body),
             updated_at := now }

/-- The whole submit loop: the for-loop of submit-worker/index.ts lines
54-76 visits every chosen job in order with no early exit, the catch block
ending each iteration normally. -/
def submitBatch (now : Int) (oracle : Job → CreateOutcome) (jobs : List Job) : List Job :=
  jobs.map (fun j => submitProcessJob now (oracle j) j)

/-- Result of one creatifyProvider.checkJobStatus call (part_012 lines
100-121): mapped status plus optional fields. -/
structure CheckResult where
  status : JobStatus
  videoUrl : Option String
  thumbnailUrl : Option String
  creditsUsed : Option Int
  progress : Option String
  errorMessage : Option String
deriving DecidableEq, Repr

/-- Patch construction of the poll worker (part_010 lines 62-76): status
and updated_at always; video_url, thumbnail_url, credits_used and
error_message only when the provider field is truthy; completed_at set to
now exactly when the new status is completed. -/
def pollApplyPatch (now : Int) (r : CheckResult) (j : Job) : Job :=
  { j with
      status := r.status,
      updated_at := now,
      video_url := if truthyS r.videoUrl then r.videoUrl else j.video_url,
      thumbnail_url := if truthyS r.thumbnailUrl then r.thumbnailUrl else j.thumbnail_url,
      credits_used := if truthyI r.creditsUsed then r.creditsUsed else j.credits_used,
      error_message := if truthyS r.errorMessage then r.errorMessage else j.error_message,
      completed_at := if r.status = JobStatus.completed then some now else j.completed_at }

/-- Body of the poll-worker loop for one job (part_010 lines 56-82): a job
without provider_job_id is skipped; a checkJobStatus call that throws is
caught, logged and leaves the row untouched; a successful call applies the
patch. -/
def pollProcessJob (now : Int) (oracle : String → Except String CheckResult) (j : Job) : Job :=
  match j.provider_job_id with
  | none => j
  | some pid =>
    match oracle pid with
    | Except.error _ => j
    | Except.ok r => pollApplyPatch now r j

/-- The whole poll loop over the chosen jobs, in order. -/
def pollBatch (now : Int) (oracle : String → Except String CheckResult) (jobs : List Job) :
    List Job :=
  jobs.map (pollProcessJob now oracle)

/-- Job-row invariant of the spec: a completed row carries a non-empty
video url and a completion time, a failed row carries a non-empty error
message. -/
def jobInvB (j : Job) : Bool :=
  (if j.status = JobStatus.completed then truthyS j.video_url && j.completed_at.isSome else true)
    && (if j.status = JobStatus.failed then truthyS j.error_message else true)

/-- Configured defaults the intake fills in (the EZVIDS_DEFAULTS object
imported by generate-video/index.ts); empty strings count as absent under
JavaScript truthiness. -/
structure EzDefaults where
  scriptText : String
  voiceMode : VoiceMode
  avatarId : String
  voiceId : String
  productImageUrl : String
  aspect : String
  captionsEnabled : Bool
  captionStyle : String
deriving DecidableEq, Repr

/-- Client body of POST generate-video (part_016 GenerateVideoAPIRequest);
absent fields are none. -/
structure GenBody where
  scriptText : Option String
  audioUrl : Option String
  voiceMode : Option VoiceMode
  avatarId : Option String
  voiceId : Option String
  productImageUrl : Option String
  productName : Option String
  aspect : Option String
  captionsEnabled : Option Bool
deriving DecidableEq, Repr

/-- The voice mode the handler resolves (generate-video/index.ts line 19):
the body field when present, else the default. -/
def resolvedVoiceMode (defaults : EzDefaults) (b : GenBody) : VoiceMode :=
  b.voiceMode.getD defaults.voiceMode

/-- Validation of generate-video/index.ts lines 20-31: tts needs a truthy
scriptText in the body or in the defaults; user_audio needs a truthy
audioUrl.  False means the handler answers 400. -/
def genBodyValid (defaults : EzDefaults) (b : GenBody) : Bool :=
  match resolvedVoiceMode defaults b with
  | VoiceMode.tts => truthyS b.scriptText || (defaults.scriptText != "")
  | VoiceMode.user_audio => truthyS b.audioUrl

/-- Request assembly of generate-video/index.ts lines 33-49: body fields
fall back to defaults under JavaScript truthiness (an empty string also
falls back). -/
def buildRequest (defaults : EzDefaults) (b : GenBody) : VideoRequest :=
  let captionsEnabled := b.captionsEnabled.getD defaults.captionsEnabled
  { scriptText := some (if truthyS b.scriptText then b.scriptText.getD "" else defaults.scriptText)
    audioUrl := b.audioUrl
    voiceMode := resolvedVoiceMode defaults b
    avatarId := if truthyS b.avatarId then b.avatarId.getD "" else defaults.avatarId
    voiceId := some (if truthyS b.voiceId then b.voiceId.getD "" else defaults.voiceId)
    productImageUrl :=
      some (if truthyS b.productImageUrl then b.productImageUrl.getD "" else defaults.productImageUrl)
    productName := b.productName
    aspect := if truthyS b.aspect then b.aspect.getD "" else defaults.aspect
    captions :=
      { enabled := captionsEnabled
        style := if captionsEnabled then some defaults.captionStyle else none } }

/-- The pending row the queue-variant VideoService.createJob inserts
(part_015 lines 18-40): status pending, no provider fields, created_at and
updated_at both now.  It performs no provider call. -/
def queueCreateJob (id userId : String) (now : Int) (req : VideoRequest) : Job :=
  { id := id
    user_id := userId
    provider_job_id := none
    status := JobStatus.pending
    request := req
    video_url := none
    thumbnail_url := none
    credits_used := none
    error_message := none
    created_at := now
    updated_at := now
    completed_at := none }

/-- The row the provider-coupled VideoService.createJob first inserts
(videoService.ts lines 24-36): identical except the status is created. -/
def coupledInsertJob (id userId : String) (now : Int) (req : VideoRequest) : Job :=
  { queueCreateJob id userId now req with status := JobStatus.created }

/-- Observable trace of one intake run: the row inserted, the further
writes to that row before the response, how many provider.createJob calls
were made, the HTTP status, and the status field of the JSON body (none
when the handler answered with an error body). -/
structure IntakeTrace where
  inserted : Job
  updatesAfterInsert : List Job
  providerCalls : Nat
  httpStatus : Nat
  responseStatus : Option JobStatus
deriving DecidableEq, Repr

/-- The generate-video handler composed with the queue-variant service
(generate-video/index.ts lines 10-56 over part_015 createJob), on a body
that passed validation: one pending insert, no provider call, answer 201
with the inserted status. -/
def intakeQueue (defaults : EzDefaults) (id userId : String) (now : Int) (b : GenBody) :
    IntakeTrace :=
  let j := queueCreateJob id userId now (buildRequest defaults b)
  { inserted := j
    updatesAfterInsert := []
    providerCalls := 0
    httpStatus := 201
    responseStatus := some j.status }

/-- The generate-video handler composed with the provider-coupled service
(generate-video/index.ts lines 10-64 over videoService.ts lines 19-58), on
a body that passed validation: insert a created row, call
provider.createJob, then either update to the provider status and answer
201 with it, or update to failed and rethrow so the handler answers 500. -/
def intakeCoupled (defaults : EzDefaults) (id userId : String) (now now2 : Int) (b : GenBody)
    (outcome : CreateOutcome) : IntakeTrace :=
  let j := coupledInsertJob id userId now (buildRequest defaults b)
  match outcome with
  | CreateOutcome.ok pid st =>
    { inserted := j
      updatesAfterInsert :=
        [{ j with provider_job_id := some pid, status := st, updated_at := now2 }]
      providerCalls := 1
      httpStatus := 201
      responseStatus := some st }
  | CreateOutcome.rateLimited =>
    { inserted := j
      updatesAfterInsert :=
        [{ j with status := JobStatus.failed,
                  error_message := some (rateLimitedMessage "createJob"),
                  updated_at := now2 }]
      providerCalls := 1
      httpStatus := 500
      responseStatus := none }
  | CreateOutcome.httpError code body =>
    { inserted := j
      updatesAfterInsert :=
        [{ j with status := JobStatus.failed,
                  error_message := some (createErrorMessage code body),
                  updated_at := now2 }]
      providerCalls := 1
      httpStatus := 500
      responseStatus := none }

/-- Observable outcome of one status read: the job returned to the caller
(none answers 404), the number of provider.checkJobStatus calls, and the
row state afterwards. -/
structure RefreshResult where
  returned : Option Job
  providerCalls : Nat
  newRow : Option Job
deriving DecidableEq, Repr

/-- Patch construction of the provider-coupled refreshJobStatus
(videoService.ts lines 74-86), identical in shape to the poll-worker
patch. -/
def refreshApplyPatch (now : Int) (r : CheckResult) (j : Job) : Job :=
  { j with
      status := r.status,
      updated_at := now,
      video_url := if truthyS r.videoUrl then r.videoUrl else j.video_url,
      thumbnail_url := if truthyS r.thumbnailUrl then r.thumbnailUrl else j.thumbnail_url,
      credits_used := if truthyI r.creditsUsed then r.creditsUsed else j.credits_used,
      error_message := if truthyS r.errorMessage then r.errorMessage else j.error_message,
      completed_at := if r.status = JobStatus.completed then some now else j.completed_at }

/-- The provider-coupled refreshJobStatus (videoService.ts lines 60-88):
missing row answers null; a terminal row or a row without provider_job_id
is returned unchanged with no provider call; otherwise checkJobStatus is
called — a throw propagates to the handler (500) — and on success the
patch is written and the patched job returned. -/
def coupledRefresh (now : Int) (oracle : String → Except String CheckResult)
    (row : Option Job) : Except String RefreshResult :=
  match row with
  | none => Except.ok { returned := none, providerCalls := 0, newRow := none }
  | some r =>
    if r.status = JobStatus.completed ∨ r.status = JobStatus.failed then
      Except.ok { returned := some r, providerCalls := 0, newRow := some r }
    else
      match r.provider_job_id with
      | none => Except.ok { returned := some r, providerCalls := 0, newRow := some r }
      | some pid =>
        match oracle pid with
        | Except.error e => Except.error e
        | Except.ok res =>
          let patched := refreshApplyPatch now res r
          Except.ok { returned := some patched, providerCalls := 1, newRow := some patched }

/-- The queue-variant refreshJobStatus (part_015 lines 46-55): a plain
database read, no provider call, no write. -/
def queueRefresh (row : Option Job) : RefreshResult :=
  match row with
  | none => { returned := none, providerCalls := 0, newRow := none }
  | some r => { returned := some r, providerCalls := 0, newRow := some r }

/-- The acquireSlots of part_013: forward the RPC result of
acquire_api_slots; an RPC error yields 0, a null datum yields 0. -/
def acquireSlotsRPC (result : Except String (Option Int)) : Int :=
  match result with
  | Except.error _ => 0
  | Except.ok d => d.getD 0

/-- Early-exit decision of the submit worker (submit-worker/index.ts lines
31-49): no candidates answers no_pending_jobs, zero slots answers
rate_limited, otherwise the run proceeds with the granted count. -/
inductive SubmitGate
  | noPending
  | rateLimited
  | proceed (slots : Int)
deriving DecidableEq, Repr

/-- Compute the gate from the candidate list and the acquired slot
count. -/
def submitGate (candidates : List Job) (slots : Int) : SubmitGate :=
  if candidates.isEmpty then SubmitGate.noPending
  else if slots = 0 then SubmitGate.rateLimited
  else SubmitGate.proceed slots

/-- HTTP status and reason field of the submit-worker response for each
gate outcome (submit-worker/index.ts lines 32-47: both early exits answer
200 with a reason; a full run answers 200 with no reason). -/
def gateResponse : SubmitGate → Nat × Option String
  | SubmitGate.noPending => (200, some "no_pending_jobs")
  | SubmitGate.rateLimited => (200, some "rate_limited")
  | SubmitGate.proceed _ => (200, none)

/-- Byte budget of the upload handler (part_011 line 4). -/
def MAX_BASE64_BYTES : Nat := 5 * 1024 * 1024

/-- Body of POST upload-product-image. -/
structure UploadBody where
  base64 : Option String
  mimeType : Option String
deriving DecidableEq, Repr

/-- Storage object name the handler builds (part_011 line 47): userId,
slash, timestamp, dash, eight random hex chars, dot, extension. -/
def uploadFileName (userId : String) (nowMs : Int) (rand8 ext : String) : String :=
  userId ++ "/" ++ toString nowMs ++ "-" ++ rand8 ++ "." ++ ext

/-- The upload-product-image handler (part_011 lines 13-75): a missing or
empty base64 field answers 400; a base64 string longer than
MAX_BASE64_BYTES answers 413 — the length of the encoded string, not of
the decoded image, is compared; then atob decodes the string (line 39) —
a string that is not decodable base64 makes atob throw, the outer catch
(lines 68-74) answers 500; otherwise the bytes are stored and the handler
answers 201 with the object name (500 when the storage upload fails).
Whether atob and the storage call succeed are outcomes of the platform,
passed in as decodeOk and storageOk.  The returned pair is the HTTP
status and the stored object name. -/
def uploadHandler (userId : String) (nowMs : Int) (rand8 : String)
    (decodeOk storageOk : Bool) (b : UploadBody) : Nat × Option String :=
  match b.base64 with
  | none => (400, none)
  | some s =>
    if s.length = 0 then (400, none)
    else if s.length > MAX_BASE64_BYTES then (413, none)
    else if decodeOk = false then (500, none)
    else
      let mime :=
        match b.mimeType with
        | some m => if m.length = 0 then "image/jpeg" else m
        | none => "image/jpeg"
      let ext := if mime = "image/png" then "png" else "jpg"
      if storageOk then (201, some (uploadFileName userId nowMs rand8 ext)) else (500, none)

/-- Modelled from the base64 standard — the atob builtin the handler
decodes with is not part of the repository.  For a canonical base64 string
whose length is a multiple of 4: three bytes per quartet minus one byte
per trailing padding character. -/
def atobLen (s : String) : Nat :=
  3 * (s.length / 4) - min 2 (s.data.count '=')

/-- Concrete sample request used by witnesses and counterexamples. -/
def sampleReq : VideoRequest :=
  { scriptText := some "hello"
    audioUrl := none
    voiceMode := VoiceMode.tts
    avatarId := "av1"
    voiceId := some "v1"
    productImageUrl := none
    productName := none
    aspect := "9:16"
    captions := { enabled := true, style := some "modern" } }

/-- Concrete pending job row used by witnesses and counterexamples. -/
def samplePending (id : String) : Job :=
  { id := id
    user_id := "u1"
    provider_job_id := none
    status := JobStatus.pending
    request := sampleReq
    video_url := none
    thumbnail_url := none
    credits_used := none
    error_message := none
    created_at := 0
    updated_at := 0
    completed_at := none }

/-- Concrete in-flight job row (rendering, provider id p1) used by
witnesses and counterexamples. -/
def sampleActive : Job :=
  { samplePending "j1" with provider_job_id := some "p1", status := JobStatus.rendering }

/-- Concrete intake body used by witnesses and counterexamples. -/
def sampleBody : GenBody :=
  { scriptText := some "hello"
    audioUrl := none
    voiceMode := some VoiceMode.tts
    avatarId := none
    voiceId := none
    productImageUrl := none
    productName := none
    aspect := none
    captionsEnabled := none }

/-- Concrete defaults object used by witnesses and counterexamples. -/
def sampleDefaults : EzDefaults :=
  { scriptText := "default script"
    voiceMode := VoiceMode.tts
    avatarId := "av-default"
    voiceId := "v-default"
    productImageUrl := "https://img/default.png"
    aspect := "9:16"
    captionsEnabled := true
    captionStyle := "modern" }

/-! Theorems. -/

/-- C2: for every sequential acquireSlots call against a well-seeded row
(0 ≤ callsMade ≤ maxCalls, requested ≥ 0): a missing row yields 0; an
expired window (now − windowStart > windowSecs) is reset to windowStart =
now and callsMade = min(requested, maxCalls), which is returned; a live
window returns min(requested, maxCalls − callsMade) and callsMade grows by
exactly the returned amount; in every case 0 ≤ result ≤ requested. -/
theorem C2_acquire_sequential_spec (now req : Int) (r : RateRow)
    (hreq : 0 ≤ req) (h0 : 0 ≤ r.calls_made) (h1 : r.calls_made ≤ r.max_calls) :
    acquire_api_slots now req none = (0, none)
    ∧ (now - r.window_start > r.window_secs →
        acquire_api_slots now req (some r) =
          (min req r.max_calls,
           some { r with window_start := now, calls_made := min req r.max_calls }))
    ∧ (¬ now - r.window_start > r.window_secs →
        (acquire_api_slots now req (some r)).1 = min req (r.max_calls - r.calls_made)
        ∧ (acquire_api_slots now req (some r)).2 =
            some { r with
                     calls_made := r.calls_made + (acquire_api_slots now req (some r)).1 })
    ∧ 0 ≤ (acquire_api_slots now req (some r)).1
    ∧ (acquire_api_slots now req (some r)).1 ≤ req := by
  have hmax : 0 ≤ r.max_calls := le_trans h0 h1
  refine ⟨rfl, ?_, ?_, ?_, ?_⟩
  · intro hw
    simp only [acquire_api_slots, acquireRow, if_pos hw]
  · intro hw
    simp only [acquire_api_slots, acquireRow, if_neg hw]
    by_cases hg : min req (r.max_calls - r.calls_made) > 0
    · simp only [if_pos hg]
      exact ⟨trivial, trivial⟩
    · simp only [if_neg hg]
      have hge : 0 ≤ min req (r.max_calls - r.calls_made) := le_min hreq (by omega)
      have hz : min req (r.max_calls - r.calls_made) = 0 := le_antisymm (by omega) hge
      refine ⟨trivial, ?_⟩
      rw [hz]
      simp
  · by_cases hw : now - r.window_start > r.window_secs
    · simp only [acquire_api_slots, acquireRow, if_pos hw]
      exact le_min hreq hmax
    · simp only [acquire_api_slots, acquireRow, if_neg hw]
      have hge : 0 ≤ min req (r.max_calls - r.calls_made) := le_min hreq (by omega)
      by_cases hg : min req (r.max_calls - r.calls_made) > 0
      · simp only [if_pos hg]
        exact hge
      · simp only [if_neg hg]
        exact hge
  · by_cases hw : now - r.window_start > r.window_secs
    · simp only [acquire_api_slots, acquireRow, if_pos hw]
      exact min_le_left _ _
    · simp only [acquire_api_slots, acquireRow, if_neg hw]
      by_cases hg : min req (r.max_calls - r.calls_made) > 0
      · simp only [if_pos hg]
        exact min_le_left _ _
      · simp only [if_neg hg]
        exact min_le_left _ _

/-- Witness for C2: concrete live-window call, requested 3 against a row
with callsMade 2 of maxCalls 5, grants min 3 (5 − 2) = 3. -/
theorem C2_acquire_sequential_spec_witness :
    (0 : Int) ≤ 3 ∧ 0 ≤ ((⟨50, 2, 5, 60⟩ : RateRow)).calls_made
    ∧ ((⟨50, 2, 5, 60⟩ : RateRow)).calls_made ≤ ((⟨50, 2, 5, 60⟩ : RateRow)).max_calls
    ∧ (acquire_api_slots 100 3 (some ⟨50, 2, 5, 60⟩)).1 ≤ 3 :=
  ⟨by decide, by decide, by decide,
    (C2_acquire_sequential_spec 100 3 ⟨50, 2, 5, 60⟩ (by decide) (by decide)
        (by decide)).2.2.2.2⟩

/-- C1 counterexample: two concurrent part_014 acquireSlots calls, each
requesting 1 against a freshly seeded row with maxCalls = 1, scheduled
read-read-commit-commit (both reads before either write, the time-of-check
to time-of-use window of the non-atomic client), are both granted 1: the
granted sum 2 exceeds maxCalls = 1. -/
theorem C1_counterexample :
    grantsSum (runSched 0 [1, 1] ⟨0, 0, 1, 60⟩
        [Ev.read 0, Ev.read 1, Ev.commit 0, Ev.commit 1]) = 2
    ∧ (⟨0, 0, 1, 60⟩ : RateRow).max_calls = 1
    ∧ ¬ grantsSum (runSched 0 [1, 1] ⟨0, 0, 1, 60⟩
          [Ev.read 0, Ev.read 1, Ev.commit 0, Ev.commit 1])
        ≤ (⟨0, 0, 1, 60⟩ : RateRow).max_calls := by
  decide

/-- Invariants of a sequence of atomic acquire_api_slots executions whose
call times stay inside the seeded window: the window start and ceiling
never change, the counter is monotone and bounded by the ceiling, and the
granted sum equals the counter growth. -/
theorem acquireRunA_window_props (calls : List (Int × Int)) (r : RateRow)
    (h0 : 0 ≤ r.calls_made) (h1 : r.calls_made ≤ r.max_calls)
    (hin : ∀ p ∈ calls, p.1 - r.window_start ≤ r.window_secs ∧ 0 ≤ p.2) :
    (acquireRunA calls r).2.window_start = r.window_start
    ∧ (acquireRunA calls r).2.max_calls = r.max_calls
    ∧ r.calls_made ≤ (acquireRunA calls r).2.calls_made
    ∧ (acquireRunA calls r).2.calls_made ≤ r.max_calls
    ∧ (acquireRunA calls r).1.sum
        = (acquireRunA calls r).2.calls_made - r.calls_made := by
  induction calls generalizing r with
  | nil =>
    refine ⟨rfl, rfl, le_refl _, h1, ?_⟩
    simp [acquireRunA]
  | cons c rest ih =>
    have hc := hin c (List.mem_cons_self _ _)
    have hrest : ∀ p ∈ rest, p.1 - r.window_start ≤ r.window_secs ∧ 0 ≤ p.2 :=
      fun p hp => hin p (List.mem_cons_of_mem _ hp)
    have hnot : ¬ c.1 - r.window_start > r.window_secs := by omega
    by_cases hg : min c.2 (r.max_calls - r.calls_made) > 0
    · have hgle : min c.2 (r.max_calls - r.calls_made) ≤ r.max_calls - r.calls_made :=
        min_le_right _ _
      have step : acquireRunA (c :: rest) r =
          (min c.2 (r.max_calls - r.calls_made)
              :: (acquireRunA rest
                    ⟨r.window_start, r.calls_made + min c.2 (r.max_calls - r.calls_made),
                      r.max_calls, r.window_secs⟩).1,
            (acquireRunA rest
              ⟨r.window_start, r.calls_made + min c.2 (r.max_calls - r.calls_made),
                r.max_calls, r.window_secs⟩).2) := by
        simp only [acquireRunA, acquireRow, if_neg hnot, if_pos hg]
      obtain ⟨w1, w2, w3, w4, w5⟩ :=
        ih ⟨r.window_start, r.calls_made + min c.2 (r.max_calls - r.calls_made),
              r.max_calls, r.window_secs⟩
          (by dsimp only; omega) (by dsimp only; omega) (by dsimp only; exact hrest)
      rw [step]
      dsimp only at w1 w2 w3 w4 w5 ⊢
      simp only [List.sum_cons]
      omega
    · have hge : 0 ≤ min c.2 (r.max_calls - r.calls_made) := le_min hc.2 (by omega)
      have hz : min c.2 (r.max_calls - r.calls_made) = 0 := le_antisymm (by omega) hge
      have step : acquireRunA (c :: rest) r =
          (min c.2 (r.max_calls - r.calls_made) :: (acquireRunA rest r).1,
            (acquireRunA rest r).2) := by
        simp only [acquireRunA, acquireRow, if_neg hnot, if_neg hg]
      obtain ⟨w1, w2, w3, w4, w5⟩ := ih r h0 h1 hrest
      rw [step]
      dsimp only at w1 w2 w3 w4 w5 ⊢
      simp only [List.sum_cons]
      omega

/-- C1 (amended): slot acquisition through the Postgres function
acquire_api_slots (the migration-003 path) is a single atomic
read-modify-write, and for any sequence of such calls whose times stay
inside the window of a freshly seeded row the granted sum is at most
maxCalls; the TypeScript acquireSlots of part_014 performs its read and
its write as separate store operations and admits the overrun of the
counterexample. -/
theorem C1_amended_atomic_window_bound (calls : List (Int × Int)) (r : RateRow)
    (hfresh : r.calls_made = 0) (hM : 0 ≤ r.max_calls)
    (hin : ∀ p ∈ calls, p.1 - r.window_start ≤ r.window_secs ∧ 0 ≤ p.2) :
    (acquireRunA calls r).1.sum ≤ r.max_calls := by
  have h := acquireRunA_window_props calls r (by omega) (by omega) hin
  omega

/-- Witness for the amended C1: two in-window calls requesting 3 then 4
against a fresh row with maxCalls 5 grant at most 5 in total. -/
theorem C1_amended_atomic_window_bound_witness :
    ((⟨0, 0, 5, 60⟩ : RateRow)).calls_made = 0
    ∧ (0 : Int) ≤ ((⟨0, 0, 5, 60⟩ : RateRow)).max_calls
    ∧ (∀ p ∈ [((10 : Int), (3 : Int)), (20, 4)],
        p.1 - ((⟨0, 0, 5, 60⟩ : RateRow)).window_start
            ≤ ((⟨0, 0, 5, 60⟩ : RateRow)).window_secs ∧ 0 ≤ p.2)
    ∧ (acquireRunA [((10 : Int), (3 : Int)), (20, 4)] ⟨0, 0, 5, 60⟩).1.sum
        ≤ ((⟨0, 0, 5, 60⟩ : RateRow)).max_calls :=
  ⟨by decide, by decide, by decide,
    C1_amended_atomic_window_bound [((10 : Int), (3 : Int)), (20, 4)] ⟨0, 0, 5, 60⟩
      (by decide) (by decide) (by decide)⟩

/-- C3 counterexample: the workers acquire through the api-keyed part_014
client with no caller argument (submit-worker/index.ts line 39, part_010
line 40), so both draw on the single creatify counter: after the submit
worker takes 2 of maxCalls 2, the poll worker is granted 0 where from the
untouched store it would have been granted 2 — one worker's grant reduced
the other's remaining budget. -/
theorem C3_counterexample :
    (submitAcquire 0 2 [("creatify", ⟨0, 0, 2, 60⟩)]).1 = 2
    ∧ (pollAcquire 0 10 (submitAcquire 0 2 [("creatify", ⟨0, 0, 2, 60⟩)]).2).1 = 0
    ∧ (pollAcquire 0 10 [("creatify", ⟨0, 0, 2, 60⟩)]).1 = 2 := by
  decide

/-- Writing one key of the keyed migration-003 store leaves the row of
every other key unchanged. -/
theorem lookupRow_setRow_ne (s : List (RateKey × RateRow)) (key key2 : RateKey)
    (row : RateRow) (hne : key ≠ key2) :
    lookupRow (setRow s key row) key2 = lookupRow s key2 := by
  induction s with
  | nil => rfl
  | cons p rest ih =>
    obtain ⟨pk, pr⟩ := p
    by_cases h : pk = key
    · subst h
      simp [setRow, lookupRow, hne]
    · simp [setRow, lookupRow, h, ih]

/-- C3 (amended): the migration-003 rate-limit store keeps one counter per
(api, caller) pair and acquire_api_slots touches only the addressed row,
so a grant under one caller key leaves every other caller's counter
unchanged; the submit and poll workers of this snapshot, however, call the
api-keyed part_014 acquireSlots with no caller argument and share the
single creatify counter, as the counterexample shows. -/
theorem C3_amended_per_caller_isolation (v_now p_requested : Int) (key key2 : RateKey)
    (s : List (RateKey × RateRow)) (hne : key ≠ key2) :
    lookupRow (acquireAt v_now p_requested key s).2 key2 = lookupRow s key2 := by
  cases hrow : lookupRow s key with
  | none => simp [acquireAt, acquire_api_slots, hrow]
  | some r =>
    simp only [acquireAt, acquire_api_slots, hrow]
    exact lookupRow_setRow_ne s key key2 _ hne

/-- Witness for the amended C3: with the migration-003 seed rows, a grant
of 5 under the submit-worker caller leaves the poll-worker row exactly as
seeded. -/
theorem C3_amended_per_caller_isolation_witness :
    (⟨"creatify", "submit-worker"⟩ : RateKey) ≠ (⟨"creatify", "poll-worker"⟩ : RateKey)
    ∧ lookupRow
        (acquireAt 0 5 ⟨"creatify", "submit-worker"⟩
          [(⟨"creatify", "submit-worker"⟩, ⟨0, 0, 15, 60⟩),
            (⟨"creatify", "poll-worker"⟩, ⟨0, 0, 25, 60⟩)]).2
        ⟨"creatify", "poll-worker"⟩
      = lookupRow
          [(⟨"creatify", "submit-worker"⟩, ⟨0, 0, 15, 60⟩),
            (⟨"creatify", "poll-worker"⟩, ⟨0, 0, 25, 60⟩)]
          ⟨"creatify", "poll-worker"⟩ :=
  ⟨by decide,
    C3_amended_per_caller_isolation 0 5 ⟨"creatify", "submit-worker"⟩
      ⟨"creatify", "poll-worker"⟩
      [(⟨"creatify", "submit-worker"⟩, ⟨0, 0, 15, 60⟩),
        (⟨"creatify", "poll-worker"⟩, ⟨0, 0, 25, 60⟩)]
      (by decide)⟩

/-- C4, behavior at the failing input: a batch of two pending jobs whose
first createJob call raises RateLimitedError.  The submit-worker catch
block (submit-worker/index.ts lines 65-75) does not test for
RateLimitedError: it marks the rate-limited job failed with the
RateLimitedError message and the loop continues to the second job —
whereas RateLimitedError's own doc comment (part_012 line 4) and the spec
require the batch to stop with the job left pending. -/
theorem C4_code_behavior_at_failing_input :
    ((submitBatch 100
        (fun j => if j.id = "j1" then CreateOutcome.rateLimited
                  else CreateOutcome.ok "p2" JobStatus.queued)
        [samplePending "j1", samplePending "j2"]).get? 0).map Job.status
      = some JobStatus.failed
    ∧ ((submitBatch 100
          (fun j => if j.id = "j1" then CreateOutcome.rateLimited
                    else CreateOutcome.ok "p2" JobStatus.queued)
          [samplePending "j1", samplePending "j2"]).get? 0).bind Job.error_message
        = some (rateLimitedMessage "createJob")
    ∧ ((submitBatch 100
          (fun j => if j.id = "j1" then CreateOutcome.rateLimited
                    else CreateOutcome.ok "p2" JobStatus.queued)
          [samplePending "j1", samplePending "j2"]).get? 1).map Job.status
        = some JobStatus.queued := by
  decide

/-- C7: a job in the poll-worker batch whose checkJobStatus call throws is
left entirely unchanged — same row, hence same status and same
updated_at — so a later run retries it. -/
theorem C7_poll_transient_error_leaves_row_unchanged
    (now : Int) (oracle : String → Except String CheckResult) (jobs : List Job)
    (i : Nat) (j : Job) (pid e : String)
    (hj : jobs[i]? = some j) (hp : j.provider_job_id = some pid)
    (he : oracle pid = Except.error e) :
    (pollBatch now oracle jobs)[i]? = some j := by
  simp [pollBatch, List.getElem?_map, hj, pollProcessJob, hp, he]

/-- Witness for C7: a rendering job with provider id p1 whose status check
times out is returned unchanged by the poll batch. -/
theorem C7_poll_transient_error_leaves_row_unchanged_witness :
    [sampleActive][0]? = some sampleActive
    ∧ sampleActive.provider_job_id = some "p1"
    ∧ (fun _ : String => (Except.error "timeout" : Except String CheckResult)) "p1"
        = Except.error "timeout"
    ∧ (pollBatch 100 (fun _ => Except.error "timeout") [sampleActive])[0]?
        = some sampleActive :=
  ⟨by decide, by decide, rfl,
    C7_poll_transient_error_leaves_row_unchanged 100 (fun _ => Except.error "timeout")
      [sampleActive] 0 sampleActive "p1" "timeout" (by decide) (by decide) rfl⟩

/-- C5 counterexample: on a valid submission, intake through the
provider-coupled _shared/videoService.ts — the service the generate-video
handler instantiates — inserts the row with status created, not pending,
performs one provider.createJob call before responding, and answers with
the provider status (queued here), not pending. -/
theorem C5_counterexample :
    genBodyValid sampleDefaults sampleBody = true
    ∧ (intakeCoupled sampleDefaults "j1" "u1" 0 5 sampleBody
        (CreateOutcome.ok "p1" JobStatus.queued)).inserted.status = JobStatus.created
    ∧ JobStatus.created ≠ JobStatus.pending
    ∧ (intakeCoupled sampleDefaults "j1" "u1" 0 5 sampleBody
        (CreateOutcome.ok "p1" JobStatus.queued)).providerCalls = 1
    ∧ (intakeCoupled sampleDefaults "j1" "u1" 0 5 sampleBody
        (CreateOutcome.ok "p1" JobStatus.queued)).responseStatus = some JobStatus.queued
    ∧ some JobStatus.queued ≠ some JobStatus.pending := by
  decide

/-- C5 (amended): intake through the queue-variant VideoService (part_015)
inserts exactly one row with status pending, performs no provider call, no
further write, and answers 201 with status pending; the provider-coupled
_shared/videoService.ts used by the generate-video handler instead inserts
the row as created and calls provider.createJob inline before responding,
as the counterexample shows. -/
theorem C5_amended_queue_intake (defaults : EzDefaults) (id userId : String) (now : Int)
    (b : GenBody) (_hvalid : genBodyValid defaults b = true) :
    (intakeQueue defaults id userId now b).inserted.status = JobStatus.pending
    ∧ (intakeQueue defaults id userId now b).updatesAfterInsert = []
    ∧ (intakeQueue defaults id userId now b).providerCalls = 0
    ∧ (intakeQueue defaults id userId now b).httpStatus = 201
    ∧ (intakeQueue defaults id userId now b).responseStatus = some JobStatus.pending :=
  ⟨rfl, rfl, rfl, rfl, rfl⟩

/-- Witness for the amended C5: the sample body passes validation and its
queue-variant intake inserts a pending row with no provider call. -/
theorem C5_amended_queue_intake_witness :
    genBodyValid sampleDefaults sampleBody = true
    ∧ (intakeQueue sampleDefaults "j1" "u1" 0 sampleBody).inserted.status = JobStatus.pending
    ∧ (intakeQueue sampleDefaults "j1" "u1" 0 sampleBody).providerCalls = 0 :=
  ⟨by decide,
    (C5_amended_queue_intake sampleDefaults "j1" "u1" 0 sampleBody (by decide)).1,
    (C5_amended_queue_intake sampleDefaults "j1" "u1" 0 sampleBody (by decide)).2.2.1⟩

/-- C6 counterexample: the job-status handler (part_009) delegates to the
provider-coupled refreshJobStatus; on an in-flight row with a provider id
that read performs one provider.checkJobStatus call and changes the row. -/
theorem C6_counterexample :
    ((coupledRefresh 100
        (fun _ => Except.ok ⟨JobStatus.completed, some "https://v/1.mp4", none, some 5,
          none, none⟩)
        (some sampleActive)).toOption.map RefreshResult.providerCalls) = some 1
    ∧ ((coupledRefresh 100
          (fun _ => Except.ok ⟨JobStatus.completed, some "https://v/1.mp4", none, some 5,
            none, none⟩)
          (some sampleActive)).toOption.map RefreshResult.newRow)
        ≠ some (some sampleActive) := by
  decide

/-- C6 (amended): the queue-variant status read (part_015) is a pure
database lookup — it returns the stored record or none, calls the provider
zero times and changes no row; the provider-coupled refreshJobStatus
behind the job-status handler is provider-free and read-only exactly for
terminal rows and rows without a provider id, and for an in-flight row
with a provider id it calls checkJobStatus and writes the patch, as the
counterexample shows. -/
theorem C6_amended_status_read (row : Option Job) (now : Int)
    (oracle : String → Except String CheckResult) (r : Job)
    (hterm : r.status = JobStatus.completed ∨ r.status = JobStatus.failed
      ∨ r.provider_job_id = none) :
    (queueRefresh row).returned = row
    ∧ (queueRefresh row).providerCalls = 0
    ∧ (queueRefresh row).newRow = row
    ∧ coupledRefresh now oracle (some r)
        = Except.ok { returned := some r, providerCalls := 0, newRow := some r } := by
  refine ⟨?_, ?_, ?_, ?_⟩
  · cases row <;> rfl
  · cases row <;> rfl
  · cases row <;> rfl
  · by_cases ht : r.status = JobStatus.completed ∨ r.status = JobStatus.failed
    · simp [coupledRefresh, ht]
    · rcases hterm with h | h | h
      · exact absurd (Or.inl h) ht
      · exact absurd (Or.inr h) ht
      · simp [coupledRefresh, ht, h]

/-- Witness for the amended C6: reading a pending row without a provider
id returns it unchanged with zero provider calls, through both variants. -/
theorem C6_amended_status_read_witness :
    ((samplePending "j9").status = JobStatus.completed
      ∨ (samplePending "j9").status = JobStatus.failed
      ∨ (samplePending "j9").provider_job_id = none)
    ∧ coupledRefresh 100 (fun _ => Except.error "unused") (some (samplePending "j9"))
        = Except.ok
            { returned := some (samplePending "j9"),
              providerCalls := 0,
              newRow := some (samplePending "j9") } :=
  ⟨by decide,
    (C6_amended_status_read (some (samplePending "j9")) 100 (fun _ => Except.error "unused")
      (samplePending "j9") (by decide)).2.2.2⟩

/-- C8 counterexample: a rendering row satisfying the invariant, polled
while the provider reports completed without a video url, is written as
completed with an empty video_url — the poll-worker patch (part_010 lines
62-76) copies the status unconditionally but the url only when the
provider sent one, so the operation breaks the invariant. -/
theorem C8_counterexample :
    jobInvB sampleActive = true
    ∧ jobInvB (pollProcessJob 100
        (fun _ => Except.ok ⟨JobStatus.completed, none, none, none, none, none⟩)
        sampleActive) = false := by
  decide

/-- A non-empty string stays non-empty under appending on the right. -/
theorem append_ne_empty_left (s t : String) (hs : s ≠ "") : s ++ t ≠ "" := by
  intro h
  apply hs
  have h2 := congrArg String.length h
  rw [String.length_append, String.length_empty] at h2
  have hz : s.length = 0 := by omega
  cases s with
  | mk data =>
    cases data with
    | nil => rfl
    | cons c cs => simp [String.length_mk] at hz

/-- The message of the Error thrown for a failed createJob HTTP response
is never the empty string. -/
theorem createErrorMessage_ne_empty (code : Nat) (body : String) :
    createErrorMessage code body ≠ "" := by
  unfold createErrorMessage
  apply append_ne_empty_left
  apply append_ne_empty_left
  apply append_ne_empty_left
  decide

/-- The poll-worker patch preserves the job invariant whenever the
provider report is well-formed: a completed report carries a truthy video
url and a failed report a truthy error message. -/
theorem jobInvB_pollApplyPatch (now : Int) (r2 : CheckResult) (j : Job)
    (h1 : r2.status = JobStatus.completed → truthyS r2.videoUrl = true)
    (h2 : r2.status = JobStatus.failed → truthyS r2.errorMessage = true) :
    jobInvB (pollApplyPatch now r2 j) = true := by
  unfold jobInvB pollApplyPatch
  by_cases hc : r2.status = JobStatus.completed
  · simp [hc, h1 hc]
  · by_cases hf : r2.status = JobStatus.failed
    · simp [hc, hf, h2 hf]
    · simp [hc, hf]

/-- The refreshJobStatus patch (identical construction) preserves the job
invariant under the same well-formedness of the provider report. -/
theorem jobInvB_refreshApplyPatch (now : Int) (r2 : CheckResult) (j : Job)
    (h1 : r2.status = JobStatus.completed → truthyS r2.videoUrl = true)
    (h2 : r2.status = JobStatus.failed → truthyS r2.errorMessage = true) :
    jobInvB (refreshApplyPatch now r2 j) = true := by
  unfold jobInvB refreshApplyPatch
  by_cases hc : r2.status = JobStatus.completed
  · simp [hc, h1 hc]
  · by_cases hf : r2.status = JobStatus.failed
    · simp [hc, hf, h2 hf]
    · simp [hc, hf]

/-- C8 (amended): each core operation — intake insert, submit-worker
update, poll-worker update, coupled status-read patch — yields a row
satisfying (completed implies video url and completedAt set, failed
implies error message set) PROVIDED the provider reports are well-formed:
createJob never reports a terminal status, and a checkJobStatus report of
completed carries a video url and of failed an error message.  Without
that proviso the poll worker violates the invariant, as the
counterexample shows. -/
theorem C8_amended_invariant_preservation
    (now : Int) (j : Job) (outcome : CreateOutcome)
    (oracle : String → Except String CheckResult) (res : CheckResult)
    (id userId : String) (req : VideoRequest)
    (hj : jobInvB j = true)
    (hok : ∀ pid st, outcome = CreateOutcome.ok pid st →
      st ≠ JobStatus.completed ∧ st ≠ JobStatus.failed)
    (horacle : ∀ pid r2, j.provider_job_id = some pid → oracle pid = Except.ok r2 →
      (r2.status = JobStatus.completed → truthyS r2.videoUrl = true)
      ∧ (r2.status = JobStatus.failed → truthyS r2.errorMessage = true))
    (hres1 : res.status = JobStatus.completed → truthyS res.videoUrl = true)
    (hres2 : res.status = JobStatus.failed → truthyS res.errorMessage = true) :
    jobInvB (queueCreateJob id userId now req) = true
    ∧ jobInvB (submitProcessJob now outcome j) = true
    ∧ jobInvB (pollProcessJob now oracle j) = true
    ∧ jobInvB (refreshApplyPatch now res j) = true := by
  refine ⟨?_, ?_, ?_, ?_⟩
  · simp [jobInvB, queueCreateJob]
  · cases outcome with
    | ok pid st =>
      obtain ⟨hne1, hne2⟩ := hok pid st rfl
      simp [jobInvB, submitProcessJob, hne1, hne2]
    | rateLimited =>
      simp [jobInvB, submitProcessJob, truthyS, rateLimitedMessage]
    | httpError code body =>
      have hne := createErrorMessage_ne_empty code body
      simp [jobInvB, submitProcessJob, truthyS, hne]
  · cases hpid : j.provider_job_id with
    | none => simpa [pollProcessJob, hpid] using hj
    | some pid =>
      cases horc : oracle pid with
      | error e => simpa [pollProcessJob, hpid, horc] using hj
      | ok r2 =>
        have hwf := horacle pid r2 hpid horc
        simp only [pollProcessJob, hpid, horc]
        exact jobInvB_pollApplyPatch now r2 j hwf.1 hwf.2
  · exact jobInvB_refreshApplyPatch now res j hres1 hres2

/-- Witness for the amended C8: a rendering job polled with a well-formed
completed report keeps the invariant. -/
theorem C8_amended_invariant_preservation_witness :
    jobInvB sampleActive = true
    ∧ jobInvB (pollProcessJob 100
        (fun _ => Except.ok ⟨JobStatus.completed, some "https://v/1.mp4", none, some 5,
          none, none⟩)
        sampleActive) = true :=
  ⟨by decide,
    (C8_amended_invariant_preservation 100 sampleActive
        (CreateOutcome.ok "p1" JobStatus.queued)
        (fun _ => Except.ok ⟨JobStatus.completed, some "https://v/1.mp4", none, some 5,
          none, none⟩)
        ⟨JobStatus.queued, none, none, none, none, none⟩ "j1" "u1" sampleReq
        (by decide)
        (fun pid st h => by
          cases h
          exact ⟨by decide, by decide⟩)
        (fun _ r2 _ hr2 => by
          cases hr2
          exact ⟨fun _ => by decide, fun h => by cases h⟩)
        (fun h => by cases h) (fun h => by cases h)).2.2.1⟩

/-- Unfolding equation for atobLen, stated over a variable so it can be
rewritten at large literals. -/
theorem atobLen_eq (s : String) :
    atobLen s = 3 * (s.length / 4) - min 2 (s.data.count '=') :=
  rfl

/-- Any base64 body longer than the budget is answered 413 with nothing
stored — the length check precedes the decode, so the outcome does not
depend on decodability or storage. -/
theorem uploadHandler_oversize (userId : String) (nowMs : Int) (rand8 : String)
    (decodeOk storageOk : Bool) (mt : Option String) (s : String)
    (hgt : s.length > MAX_BASE64_BYTES) :
    uploadHandler userId nowMs rand8 decodeOk storageOk ⟨some s, mt⟩ = (413, none) := by
  have hz : ¬ s.length = 0 := by omega
  simp [uploadHandler, hz, hgt]

/-- C9 counterexample: a base64 payload of 5 MiB + 4 bytes decodes to
about 3.75 MiB — under the claimed 5 MiB decoded limit — yet the handler
answers 413, because part_011 line 31 compares the length of the encoded
string against MAX_BASE64_BYTES. -/
theorem C9_counterexample :
    atobLen (String.mk (List.replicate (MAX_BASE64_BYTES + 4) 'A')) ≤ 5 * 1024 * 1024
    ∧ (uploadHandler "u1" 0 "abcd1234" true true
        ⟨some (String.mk (List.replicate (MAX_BASE64_BYTES + 4) 'A')), none⟩).1 = 413
    ∧ (413 : Nat) ≠ 201 := by
  have hlen : (String.mk (List.replicate (MAX_BASE64_BYTES + 4) 'A')).length
      = MAX_BASE64_BYTES + 4 := by
    rw [String.length_mk, List.length_replicate]
  have hcount : (String.mk (List.replicate (MAX_BASE64_BYTES + 4) 'A')).data.count '=' = 0 := by
    show (List.replicate (MAX_BASE64_BYTES + 4) 'A').count '=' = 0
    rw [List.count_replicate]
    simp
  refine ⟨?_, ?_, by decide⟩
  · rw [atobLen_eq, hlen, hcount]
    decide
  · rw [uploadHandler_oversize "u1" 0 "abcd1234" true true none _ (by rw [hlen]; decide)]

/-- C9 (amended): a missing or empty base64 field answers 400; a base64
string whose ENCODED length exceeds 5 MiB answers 413 (the handler
compares the encoded length, so the effective decoded ceiling is about
3.75 MiB and an encoded payload over 5 MiB is rejected even when its
decoded image is below 5 MiB); an in-budget string that atob cannot
decode answers 500; otherwise, when the decode and the storage upload
succeed, the image is stored under userId/timestamp-rand8.(png|jpg) —
png exactly when mimeType is image/png — and 201 with the stored name is
returned. -/
theorem C9_amended_upload_spec (userId : String) (nowMs : Int) (rand8 : String)
    (decodeOk storageOk : Bool) (b : UploadBody) (s : String) :
    (b.base64 = none →
        uploadHandler userId nowMs rand8 decodeOk storageOk b = (400, none))
    ∧ (b.base64 = some s → s.length = 0 →
        uploadHandler userId nowMs rand8 decodeOk storageOk b = (400, none))
    ∧ (b.base64 = some s → s.length > MAX_BASE64_BYTES →
        uploadHandler userId nowMs rand8 decodeOk storageOk b = (413, none))
    ∧ (b.base64 = some s → 0 < s.length → s.length ≤ MAX_BASE64_BYTES →
        decodeOk = false →
        uploadHandler userId nowMs rand8 decodeOk storageOk b = (500, none))
    ∧ (b.base64 = some s → 0 < s.length → s.length ≤ MAX_BASE64_BYTES →
        decodeOk = true → storageOk = true →
        uploadHandler userId nowMs rand8 decodeOk storageOk b
          = (201, some (uploadFileName userId nowMs rand8
              (if b.mimeType = some "image/png" then "png" else "jpg")))) := by
  refine ⟨?_, ?_, ?_, ?_, ?_⟩
  · intro hb
    simp [uploadHandler, hb]
  · intro hb hz
    simp [uploadHandler, hb, hz]
  · intro hb hgt
    have hz : ¬ s.length = 0 := by omega
    simp [uploadHandler, hb, hz, hgt]
  · intro hb hpos hle hdec
    have hz : ¬ s.length = 0 := by omega
    have hgt : ¬ s.length > MAX_BASE64_BYTES := by omega
    simp [uploadHandler, hb, hz, hgt, hdec]
  · intro hb hpos hle hdec hsok
    have hz : ¬ s.length = 0 := by omega
    have hgt : ¬ s.length > MAX_BASE64_BYTES := by omega
    cases hm : b.mimeType with
    | none => simp [uploadHandler, hb, hz, hgt, hm, hdec, hsok]
    | some m =>
      by_cases hpng : m = "image/png"
      · subst hpng
        have hplen : ¬ ("image/png" : String).length = 0 := by decide
        simp [uploadHandler, hb, hz, hgt, hm, hdec, hsok, hplen]
      · by_cases hml : m.length = 0
        · have hmne : ¬ m = "image/png" := hpng
          simp [uploadHandler, hb, hz, hgt, hm, hdec, hsok, hml, hmne]
        · simp [uploadHandler, hb, hz, hgt, hm, hdec, hsok, hml, hpng]

/-- Witness for the amended C9: a four-byte base64 body with no mime type
decodes, is stored as jpg and answered 201; the same body with a failing
decode is answered 500. -/
theorem C9_amended_upload_spec_witness :
    (⟨some "QUJD", none⟩ : UploadBody).base64 = some "QUJD"
    ∧ 0 < ("QUJD" : String).length
    ∧ ("QUJD" : String).length ≤ MAX_BASE64_BYTES
    ∧ uploadHandler "u1" 0 "r8" false true ⟨some "QUJD", none⟩ = (500, none)
    ∧ uploadHandler "u1" 0 "r8" true true ⟨some "QUJD", none⟩
        = (201, some (uploadFileName "u1" 0 "r8"
            (if (⟨some "QUJD", none⟩ : UploadBody).mimeType = some "image/png"
             then "png" else "jpg"))) :=
  ⟨rfl, by decide, by decide,
    (C9_amended_upload_spec "u1" 0 "r8" false true ⟨some "QUJD", none⟩ "QUJD").2.2.2.1
      rfl (by decide) (by decide) rfl,
    (C9_amended_upload_spec "u1" 0 "r8" true true ⟨some "QUJD", none⟩ "QUJD").2.2.2.2
      rfl (by decide) (by decide) rfl rfl⟩

/-- C10: acquireSlots is total over store failures — the part_013 client
maps an RPC error to grant 0 and the part_014 client maps a read error or
missing row to grant 0 with no write — and a worker that received 0 exits
its gate with the same 200 rate_limited response it produces under
genuine quota exhaustion (a full live window), so the two conditions are
indistinguishable in the worker's diagnostic output. -/
theorem C10_store_error_reads_as_rate_limited
    (e : String) (nowMs req : Int) (cands : List Job) (row : RateRow)
    (hcands : cands ≠ [])
    (hfull : row.calls_made = row.max_calls)
    (hlive : ¬ nowMs - row.window_start > 1000 * row.window_secs)
    (hreq : 0 ≤ req) :
    acquireSlotsRPC (Except.error e) = 0
    ∧ acquireSlotsTS nowMs req none = (0, none)
    ∧ (acquireSlotsTS nowMs req (some row)).1 = 0
    ∧ submitGate cands (acquireSlotsRPC (Except.error e)) = SubmitGate.rateLimited
    ∧ submitGate cands (acquireSlotsTS nowMs req (some row)).1 = SubmitGate.rateLimited
    ∧ gateResponse (submitGate cands (acquireSlotsRPC (Except.error e)))
        = (200, some "rate_limited") := by
  have hrem : row.max_calls - row.calls_made = 0 := by omega
  have hmin : min (row.max_calls - row.calls_made) req = 0 := by
    rw [hrem]
    exact min_eq_left hreq
  have hgr : (acquireSlotsTS nowMs req (some row)).1 = 0 := by
    simp only [acquireSlotsTS, if_neg hlive, hmin]
    simp
  have hne : cands.isEmpty = false := by
    cases cands with
    | nil => exact absurd rfl hcands
    | cons c cs => rfl
  refine ⟨rfl, rfl, hgr, ?_, ?_, ?_⟩
  · simp [submitGate, acquireSlotsRPC, hne]
  · rw [hgr]
    simp [submitGate, hne]
  · simp [submitGate, acquireSlotsRPC, hne, gateResponse]

/-- Witness for C10: a failing store and a saturated window both drive the
submit-worker gate to the rate_limited exit on a one-candidate batch. -/
theorem C10_store_error_reads_as_rate_limited_witness :
    [samplePending "j1"] ≠ ([] : List Job)
    ∧ ((⟨0, 15, 15, 60⟩ : RateRow)).calls_made = ((⟨0, 15, 15, 60⟩ : RateRow)).max_calls
    ∧ ¬ (0 : Int) - ((⟨0, 15, 15, 60⟩ : RateRow)).window_start
        > 1000 * ((⟨0, 15, 15, 60⟩ : RateRow)).window_secs
    ∧ (0 : Int) ≤ 3
    ∧ submitGate [samplePending "j1"] (acquireSlotsRPC (Except.error "boom"))
        = SubmitGate.rateLimited
    ∧ submitGate [samplePending "j1"] (acquireSlotsTS 0 3 (some ⟨0, 15, 15, 60⟩)).1
        = SubmitGate.rateLimited :=
  ⟨by decide, by decide, by decide, by decide,
    (C10_store_error_reads_as_rate_limited "boom" 0 3 [samplePending "j1"] ⟨0, 15, 15, 60⟩
        (by decide) (by decide) (by decide) (by decide)).2.2.2.1,
    (C10_store_error_reads_as_rate_limited "boom" 0 3 [samplePending "j1"] ⟨0, 15, 15, 60⟩
        (by decide) (by decide) (by decide) (by decide)).2.2.2.2.1⟩

end EzVids
